import Mathlib

/-!
Verification of the PubSub-Python client facade (`pubsub/client.py`).

The facade is embedded shallowly: the remote Pub/Sub service is an oracle
(`Service`) mapping each request body to the response the broker would give,
and each facade method is a pure function returning its result together with
the trace of remote calls it issued, in order.  Message payloads are byte
strings (`List Nat`, each entry `< 256`); the wire encoding is base64, as in
Python's `base64.b64encode` / `base64.b64decode`.
-/

namespace PubSubSpec

/-- Sextet-to-character table of standard base64 (RFC 4648), as used by
Python's `base64.b64encode`. -/
def encB64 (n : Nat) : Char :=
  if n < 26 then Char.ofNat (65 + n)
  else if n < 52 then Char.ofNat (97 + (n - 26))
  else if n < 62 then Char.ofNat (48 + (n - 52))
  else if n = 62 then '+'
  else '/'

/-- Character-to-sextet table of standard base64; `none` on characters
outside the alphabet (in particular on the padding character). -/
def decB64 (c : Char) : Option Nat :=
  if 65 ≤ c.toNat ∧ c.toNat ≤ 90 then some (c.toNat - 65)
  else if 97 ≤ c.toNat ∧ c.toNat ≤ 122 then some (c.toNat - 97 + 26)
  else if 48 ≤ c.toNat ∧ c.toNat ≤ 57 then some (c.toNat - 48 + 52)
  else if c = '+' then some 62
  else if c = '/' then some 63
  else none

/-- Base64 encoding of a byte string, three bytes to four characters with
trailing padding, as `base64.b64encode` produces. -/
def encodeChunks : List Nat → List Char
  | a :: b :: c :: rest =>
      encB64 (a / 4) :: encB64 (a % 4 * 16 + b / 16) ::
        encB64 (b % 16 * 4 + c / 64) :: encB64 (c % 64) :: encodeChunks rest
  | [a, b] => [encB64 (a / 4), encB64 (a % 4 * 16 + b / 16), encB64 (b % 16 * 4), '=']
  | [a] => [encB64 (a / 4), encB64 (a % 4 * 16), '=', '=']
  | [] => []

/-- Base64 decoding of well-formed base64 text, four characters to three
bytes, with the two padded final-group forms; `none` on input
`base64.b64decode` would reject. -/
def decodeChunks : List Char → Option (List Nat)
  | [] => some []
  | c1 :: c2 :: c3 :: c4 :: rest =>
    match decB64 c1, decB64 c2, decB64 c3, decB64 c4 with
    | some s1, some s2, some s3, some s4 =>
        (decodeChunks rest).map fun tl =>
          (s1 * 4 + s2 / 16) :: (s2 % 16 * 16 + s3 / 4) :: (s3 % 4 * 64 + s4) :: tl
    | some s1, some s2, some s3, none =>
        if c4 = '=' ∧ rest = [] then some [s1 * 4 + s2 / 16, s2 % 16 * 16 + s3 / 4]
        else none
    | some s1, some s2, none, none =>
        if c3 = '=' ∧ c4 = '=' ∧ rest = [] then some [s1 * 4 + s2 / 16]
        else none
    | _, _, _, _ => none
  | _ => none

/-- `base64.b64encode` on a byte string, producing the wire text. -/
def b64encode (bs : List Nat) : String :=
  ⟨encodeChunks bs⟩

/-- `base64.b64decode` on wire text. -/
def b64decode (s : String) : Option (List Nat) :=
  decodeChunks s.toList

theorem decB64_encB64_fin : ∀ n : Fin 64, decB64 (encB64 n.val) = some n.val := by
  decide

theorem decB64_encB64 {n : Nat} (h : n < 64) : decB64 (encB64 n) = some n :=
  decB64_encB64_fin ⟨n, h⟩

theorem decB64_pad : decB64 '=' = none := by
  decide

/-- Decoding inverts encoding on every byte string. -/
theorem decodeChunks_encodeChunks :
    ∀ (bs : List Nat), (∀ x ∈ bs, x < 256) →
      decodeChunks (encodeChunks bs) = some bs := by
  have key : ∀ (n : Nat) (bs : List Nat), bs.length ≤ n → (∀ x ∈ bs, x < 256) →
      decodeChunks (encodeChunks bs) = some bs := by
    intro n
    induction n with
    | zero =>
      intro bs hlen _
      have : bs = [] := List.length_eq_zero.mp (Nat.le_zero.mp hlen)
      subst this
      simp [encodeChunks, decodeChunks]
    | succ n ih =>
      intro bs hlen hb
      match bs with
      | [] => simp [encodeChunks, decodeChunks]
      | [a] =>
        have ha : a < 256 := hb a (by simp)
        have h1 : a / 4 < 64 := by omega
        have h2 : a % 4 * 16 < 64 := by omega
        simp only [encodeChunks, decodeChunks, decB64_encB64 h1, decB64_encB64 h2,
          decB64_pad]
        simp only [and_self, if_true]
        have e1 : a / 4 * 4 + a % 4 * 16 / 16 = a := by omega
        rw [e1]
      | [a, b] =>
        have ha : a < 256 := hb a (by simp)
        have hbb : b < 256 := hb b (by simp)
        have h1 : a / 4 < 64 := by omega
        have h2 : a % 4 * 16 + b / 16 < 64 := by omega
        have h3 : b % 16 * 4 < 64 := by omega
        simp only [encodeChunks, decodeChunks, decB64_encB64 h1, decB64_encB64 h2,
          decB64_encB64 h3, decB64_pad]
        simp only [and_self, if_true]
        have e1 : a / 4 * 4 + (a % 4 * 16 + b / 16) / 16 = a := by omega
        have e2 : (a % 4 * 16 + b / 16) % 16 * 16 + b % 16 * 4 / 4 = b := by omega
        rw [e1, e2]
      | a :: b :: c :: rest =>
        have ha : a < 256 := hb a (by simp)
        have hbb : b < 256 := hb b (by simp)
        have hc : c < 256 := hb c (by simp)
        have h1 : a / 4 < 64 := by omega
        have h2 : a % 4 * 16 + b / 16 < 64 := by omega
        have h3 : b % 16 * 4 + c / 64 < 64 := by omega
        have h4 : c % 64 < 64 := by omega
        have hrest : decodeChunks (encodeChunks rest) = some rest := by
          apply ih rest
          · simp only [List.length_cons] at hlen
            omega
          · intro x hx
            exact hb x (by simp [hx])
        simp only [encodeChunks, decodeChunks, decB64_encB64 h1, decB64_encB64 h2,
          decB64_encB64 h3, decB64_encB64 h4, hrest, Option.map_some']
        have e1 : a / 4 * 4 + (a % 4 * 16 + b / 16) / 16 = a := by omega
        have e2 : (a % 4 * 16 + b / 16) % 16 * 16 + (b % 16 * 4 + c / 64) / 4 = b := by
          omega
        have e3 : (b % 16 * 4 + c / 64) % 4 * 64 + c % 64 = c := by omega
        rw [e1, e2, e3]
  intro bs
  exact key bs.length bs le_rfl

theorem b64decode_b64encode {bs : List Nat} (h : ∀ x ∈ bs, x < 256) :
    b64decode (b64encode bs) = some bs :=
  decodeChunks_encodeChunks bs h

/-- Outcome of executing a get/create/delete/publish/acknowledge request:
either success (the facade ignores the response value) or an `HttpError`
carrying `resp.status`. -/
inductive HttpResult where
  | ok : HttpResult
  | err (status : Nat) : HttpResult
deriving DecidableEq, Repr

/-- Body of `topics().create(body=...)`: `{'name': name}`. -/
structure TopicCreateBody where
  name : String
deriving DecidableEq, Repr

/-- Body of `subscriptions().create(body=...)`:
`{'name': ..., 'topic': ..., 'pushConfig': {'pushEndpoint': endpoint}}`.
The endpoint is `Option String` because the Python argument defaults to
`None`. -/
structure SubCreateBody where
  name : String
  topic : String
  pushEndpoint : Option String
deriving DecidableEq, Repr

/-- Body of `topics().publish(body=...)`:
`{'topic': ..., 'message': {'data': base64 text}}`. -/
structure PublishBody where
  topic : String
  data : String
deriving DecidableEq, Repr

/-- Body of `subscriptions().pull(body=...)`:
`{'subscription': ..., 'returnImmediately': not block}`. -/
structure PullBody where
  subscription : String
  returnImmediately : Bool
deriving DecidableEq, Repr

/-- Body of `subscriptions().acknowledge(body=...)`:
`{'subscription': ..., 'ackId': [ack_id]}`.  The entry is `Option String`
because `resp.get('ackId')` may be `None`. -/
structure AckBody where
  subscription : String
  ackId : List (Option String)
deriving DecidableEq, Repr

/-- The `'message'` value inside `'pubsubEvent'` is a dictionary, modelled
as an association list; the code reads it only via `.get('data')` and its
truthiness (a dictionary is falsy exactly when empty). -/
abbrev MessageDict : Type := List (String × String)

/-- The `'pubsubEvent'` dictionary of a pull response.  `message = none`
covers both a missing `'message'` key and a `None` value, which the code
cannot distinguish (`dict.get` returns `None` in both cases). -/
structure PubsubEvent where
  message : Option MessageDict
deriving DecidableEq, Repr

/-- A successful pull response dictionary.  `pubsubEvent = none` covers a
missing `'pubsubEvent'` key (or a `None` value), on which the code's
`.get('message')` raises `AttributeError`. -/
structure PullResp where
  pubsubEvent : Option PubsubEvent
  ackId : Option String
deriving DecidableEq, Repr

/-- One remote call issued by the facade, together with its request data. -/
inductive Call where
  | topicsGet (topic : String)
  | topicsCreate (body : TopicCreateBody)
  | topicsDelete (topic : String)
  | topicsPublish (body : PublishBody)
  | subscriptionsGet (subscription : String)
  | subscriptionsCreate (body : SubCreateBody)
  | subscriptionsDelete (subscription : String)
  | subscriptionsPull (body : PullBody)
  | subscriptionsAcknowledge (body : AckBody)
deriving DecidableEq, Repr

/-- The remote Pub/Sub service, as an oracle mapping each request to the
response its `execute()` produces.  This models the duck-typed
`pubsub_service` object the facade holds. -/
structure Service where
  topicsGet : String → HttpResult
  topicsCreate : TopicCreateBody → HttpResult
  topicsDelete : String → HttpResult
  topicsPublish : PublishBody → HttpResult
  subscriptionsGet : String → HttpResult
  subscriptionsCreate : SubCreateBody → HttpResult
  subscriptionsDelete : String → HttpResult
  subscriptionsPull : PullBody → Except Nat PullResp
  subscriptionsAcknowledge : AckBody → HttpResult

/-- The facade object: an authenticated service handle and a project id,
exactly the two fields `PubSubClient.__init__` stores. -/
structure PubSubClient where
  pubsub : Service
  project_id : String

/-- `'/topics/%s/%s' % (self.project_id, name)`. -/
def PubSubClient.full_topic_name (c : PubSubClient) (name : String) : String :=
  "/topics/" ++ c.project_id ++ "/" ++ name

/-- `'/subscriptions/%s/%s' % (self.project_id, name)`. -/
def PubSubClient.full_subscription_name (c : PubSubClient) (name : String) : String :=
  "/subscriptions/" ++ c.project_id ++ "/" ++ name

/-- `PubSubClient.create_topic`: look the topic up; on a 404 create it with
body `{'name': name}`; re-raise any other error.  Returns the outcome and
the ordered trace of remote calls. -/
def PubSubClient.create_topic (c : PubSubClient) (name : String) :
    Except Nat Unit × List Call :=
  let n := c.full_topic_name name
  match c.pubsub.topicsGet n with
  | .ok => (.ok (), [.topicsGet n])
  | .err s =>
    if s = 404 then
      match c.pubsub.topicsCreate ⟨n⟩ with
      | .ok => (.ok (), [.topicsGet n, .topicsCreate ⟨n⟩])
      | .err s2 => (.error s2, [.topicsGet n, .topicsCreate ⟨n⟩])
    else (.error s, [.topicsGet n])

/-- `PubSubClient.delete_topic`: issue the delete; swallow a 404, re-raise
any other error. -/
def PubSubClient.delete_topic (c : PubSubClient) (name : String) :
    Except Nat Unit × List Call :=
  let n := c.full_topic_name name
  match c.pubsub.topicsDelete n with
  | .ok => (.ok (), [.topicsDelete n])
  | .err s =>
    if s = 404 then (.ok (), [.topicsDelete n])
    else (.error s, [.topicsDelete n])

/-- `PubSubClient.subscribe`: look the subscription up; on a 404 create it
with the scoped subscription name, the rescoped topic name and the verbatim
push endpoint; re-raise any other error. -/
def PubSubClient.subscribe (c : PubSubClient) (name topic : String)
    (endpoint : Option String) : Except Nat Unit × List Call :=
  let n := c.full_subscription_name name
  match c.pubsub.subscriptionsGet n with
  | .ok => (.ok (), [.subscriptionsGet n])
  | .err s =>
    if s = 404 then
      let body : SubCreateBody := ⟨n, c.full_topic_name topic, endpoint⟩
      match c.pubsub.subscriptionsCreate body with
      | .ok => (.ok (), [.subscriptionsGet n, .subscriptionsCreate body])
      | .err s2 => (.error s2, [.subscriptionsGet n, .subscriptionsCreate body])
    else (.error s, [.subscriptionsGet n])

/-- `PubSubClient.unsubscribe`: issue the delete; swallow a 404, re-raise
any other error. -/
def PubSubClient.unsubscribe (c : PubSubClient) (name : String) :
    Except Nat Unit × List Call :=
  let n := c.full_subscription_name name
  match c.pubsub.subscriptionsDelete n with
  | .ok => (.ok (), [.subscriptionsDelete n])
  | .err s =>
    if s = 404 then (.ok (), [.subscriptionsDelete n])
    else (.error s, [.subscriptionsDelete n])

/-- `PubSubClient.publish`: one publish call with the scoped topic name and
the base64-encoded message. -/
def PubSubClient.publish (c : PubSubClient) (topic : String) (message : List Nat) :
    Except Nat Unit × List Call :=
  let body : PublishBody := ⟨c.full_topic_name topic, b64encode message⟩
  match c.pubsub.topicsPublish body with
  | .ok => (.ok (), [.topicsPublish body])
  | .err s => (.error s, [.topicsPublish body])

/-- What `PubSubClient.pull` can do: return a decoded payload, return
`None`, raise an `HttpError`, raise `AttributeError`
(`resp.get('pubsubEvent')` was `None`), or raise a `TypeError` from
`base64.b64decode` (missing or malformed `'data'`). -/
inductive PullResult where
  | payload (data : List Nat)
  | nomsg
  | httpErr (status : Nat)
  | attrErr
  | typeErr
deriving DecidableEq, Repr

/-- `PubSubClient.pull`: one pull call; if the `'message'` value is truthy,
one acknowledge call with `ackId: [resp.get('ackId')]` followed by decoding
`message.get('data')`; otherwise return `None` with no acknowledge call. -/
def PubSubClient.pull (c : PubSubClient) (subscription : String) (block : Bool) :
    PullResult × List Call :=
  let n := c.full_subscription_name subscription
  let body : PullBody := ⟨n, !block⟩
  match c.pubsub.subscriptionsPull body with
  | .error s => (.httpErr s, [.subscriptionsPull body])
  | .ok resp =>
    match resp.pubsubEvent with
    | none => (.attrErr, [.subscriptionsPull body])
    | some ev =>
      match ev.message with
      | none => (.nomsg, [.subscriptionsPull body])
      | some msg =>
        if msg.isEmpty then (.nomsg, [.subscriptionsPull body])
        else
          let ackBody : AckBody := ⟨n, [resp.ackId]⟩
          match c.pubsub.subscriptionsAcknowledge ackBody with
          | .err s => (.httpErr s, [.subscriptionsPull body, .subscriptionsAcknowledge ackBody])
          | .ok =>
            match List.lookup "data" msg with
            | none => (.typeErr, [.subscriptionsPull body, .subscriptionsAcknowledge ackBody])
            | some d =>
              match b64decode d with
              | none => (.typeErr, [.subscriptionsPull body, .subscriptionsAcknowledge ackBody])
              | some bs => (.payload bs, [.subscriptionsPull body, .subscriptionsAcknowledge ackBody])

/-- An `AssertionCredentials` instance (always truthy in Python). -/
inductive Credentials where
  | assertion
deriving DecidableEq, Repr

/-- Python truthiness of an optional string argument: `None` and the empty
string are falsy. -/
def truthyStr : Option String → Bool
  | none => false
  | some s => !s.isEmpty

/-- The message of the `Exception` raised by `get_client` (the source
concatenates two string literals without a space, yielding "privatekey"). -/
def missingCredentialsMsg : String :=
  "AssertionCredentials or service account and privatekey need to be provided"

/-- `get_client`: raise unless credentials are truthy or both
`service_account` and `private_key` are truthy; otherwise build the service
(delegated to the external authentication collaborator, modelled as the
`pubsub_service` parameter) and return the facade.  The credentials check
precedes the service construction. -/
def get_client (pubsub_service : Service) (project_id : String)
    (credentials : Option Credentials) (service_account private_key : Option String) :
    Except String PubSubClient :=
  if !credentials.isSome && !(truthyStr service_account && truthyStr private_key) then
    .error missingCredentialsMsg
  else
    .ok ⟨pubsub_service, project_id⟩

/-- A broker whose response to every request of a given kind is fixed,
used to instantiate the universally quantified theorems below at concrete
inputs. -/
def constService (tg tc td tp sg sc sd : HttpResult) (spl : Except Nat PullResp)
    (sa : HttpResult) : Service :=
  ⟨fun _ => tg, fun _ => tc, fun _ => td, fun _ => tp,
   fun _ => sg, fun _ => sc, fun _ => sd, fun _ => spl, fun _ => sa⟩

/-- C2: create_topic performs one lookup and, only on a 404, one create
with body `{name: scoped name}`; it succeeds whenever the lookup succeeds
or the 404-triggered create succeeds, so a repeat call against a broker
that now has the topic never errors. -/
theorem create_topic_reconciliation :
    ∀ (svc : Service) (p t : String),
      (svc.topicsGet ("/topics/" ++ p ++ "/" ++ t) = .err 404 →
        svc.topicsCreate ⟨"/topics/" ++ p ++ "/" ++ t⟩ = .ok →
        PubSubClient.create_topic ⟨svc, p⟩ t =
          (.ok (), [.topicsGet ("/topics/" ++ p ++ "/" ++ t),
                    .topicsCreate ⟨"/topics/" ++ p ++ "/" ++ t⟩])) ∧
      (svc.topicsGet ("/topics/" ++ p ++ "/" ++ t) = .ok →
        PubSubClient.create_topic ⟨svc, p⟩ t =
          (.ok (), [.topicsGet ("/topics/" ++ p ++ "/" ++ t)])) ∧
      (∀ svc2 : Service,
        (PubSubClient.create_topic ⟨svc, p⟩ t).1 = .ok () →
        svc2.topicsGet ("/topics/" ++ p ++ "/" ++ t) = .ok →
        (PubSubClient.create_topic ⟨svc2, p⟩ t).1 = .ok ()) := by
  intro svc p t
  refine ⟨fun hget hcreate => ?_, fun hget => ?_, fun svc2 _ hget => ?_⟩
  · simp [PubSubClient.create_topic, PubSubClient.full_topic_name, hget, hcreate]
  · simp [PubSubClient.create_topic, PubSubClient.full_topic_name, hget]
  · simp [PubSubClient.create_topic, PubSubClient.full_topic_name, hget]

/-- Witness for C2 at project "project", topic "foo": an absent-topic
broker does lookup+create and succeeds; a present-topic broker does only
the lookup; the second consecutive call succeeds. -/
theorem create_topic_reconciliation_witness :
    PubSubClient.create_topic
        ⟨constService (.err 404) .ok .ok .ok .ok .ok .ok (.ok ⟨none, none⟩) .ok, "project"⟩
        "foo" =
      (.ok (), [.topicsGet ("/topics/" ++ "project" ++ "/" ++ "foo"),
                .topicsCreate ⟨"/topics/" ++ "project" ++ "/" ++ "foo"⟩]) ∧
    PubSubClient.create_topic
        ⟨constService .ok .ok .ok .ok .ok .ok .ok (.ok ⟨none, none⟩) .ok, "project"⟩
        "foo" =
      (.ok (), [.topicsGet ("/topics/" ++ "project" ++ "/" ++ "foo")]) ∧
    (PubSubClient.create_topic
        ⟨constService .ok .ok .ok .ok .ok .ok .ok (.ok ⟨none, none⟩) .ok, "project"⟩
        "foo").1 = .ok () :=
  ⟨(create_topic_reconciliation
      (constService (.err 404) .ok .ok .ok .ok .ok .ok (.ok ⟨none, none⟩) .ok)
      "project" "foo").1 rfl rfl,
   (create_topic_reconciliation
      (constService .ok .ok .ok .ok .ok .ok .ok (.ok ⟨none, none⟩) .ok)
      "project" "foo").2.1 rfl,
   (create_topic_reconciliation
      (constService (.err 404) .ok .ok .ok .ok .ok .ok (.ok ⟨none, none⟩) .ok)
      "project" "foo").2.2
     (constService .ok .ok .ok .ok .ok .ok .ok (.ok ⟨none, none⟩) .ok) rfl rfl⟩

/-- C4: delete_topic and unsubscribe each issue exactly one delete call to
the fully-scoped name whatever the broker answers, and return successfully
both on a successful delete and on a 404. -/
theorem delete_is_idempotent :
    ∀ (svc : Service) (p nm : String),
      (PubSubClient.delete_topic ⟨svc, p⟩ nm).2 =
        [.topicsDelete ("/topics/" ++ p ++ "/" ++ nm)] ∧
      (svc.topicsDelete ("/topics/" ++ p ++ "/" ++ nm) = .ok →
        PubSubClient.delete_topic ⟨svc, p⟩ nm =
          (.ok (), [.topicsDelete ("/topics/" ++ p ++ "/" ++ nm)])) ∧
      (svc.topicsDelete ("/topics/" ++ p ++ "/" ++ nm) = .err 404 →
        PubSubClient.delete_topic ⟨svc, p⟩ nm =
          (.ok (), [.topicsDelete ("/topics/" ++ p ++ "/" ++ nm)])) ∧
      (PubSubClient.unsubscribe ⟨svc, p⟩ nm).2 =
        [.subscriptionsDelete ("/subscriptions/" ++ p ++ "/" ++ nm)] ∧
      (svc.subscriptionsDelete ("/subscriptions/" ++ p ++ "/" ++ nm) = .ok →
        PubSubClient.unsubscribe ⟨svc, p⟩ nm =
          (.ok (), [.subscriptionsDelete ("/subscriptions/" ++ p ++ "/" ++ nm)])) ∧
      (svc.subscriptionsDelete ("/subscriptions/" ++ p ++ "/" ++ nm) = .err 404 →
        PubSubClient.unsubscribe ⟨svc, p⟩ nm =
          (.ok (), [.subscriptionsDelete ("/subscriptions/" ++ p ++ "/" ++ nm)])) := by
  intro svc p nm
  refine ⟨?_, fun h => ?_, fun h => ?_, ?_, fun h => ?_, fun h => ?_⟩
  · simp only [PubSubClient.delete_topic, PubSubClient.full_topic_name]
    cases svc.topicsDelete ("/topics/" ++ p ++ "/" ++ nm) with
    | ok => rfl
    | err s =>
      by_cases hs : s = 404 <;> simp [hs]
  · simp [PubSubClient.delete_topic, PubSubClient.full_topic_name, h]
  · simp [PubSubClient.delete_topic, PubSubClient.full_topic_name, h]
  · simp only [PubSubClient.unsubscribe, PubSubClient.full_subscription_name]
    cases svc.subscriptionsDelete ("/subscriptions/" ++ p ++ "/" ++ nm) with
    | ok => rfl
    | err s =>
      by_cases hs : s = 404 <;> simp [hs]
  · simp [PubSubClient.unsubscribe, PubSubClient.full_subscription_name, h]
  · simp [PubSubClient.unsubscribe, PubSubClient.full_subscription_name, h]

/-- Witness for C4 at project "project", name "foo": success case against
an all-ok broker, 404 case against an all-404 broker. -/
theorem delete_is_idempotent_witness :
    PubSubClient.delete_topic
        ⟨constService .ok .ok .ok .ok .ok .ok .ok (.ok ⟨none, none⟩) .ok, "project"⟩ "foo" =
      (.ok (), [.topicsDelete ("/topics/" ++ "project" ++ "/" ++ "foo")]) ∧
    PubSubClient.delete_topic
        ⟨constService .ok .ok (.err 404) .ok .ok .ok (.err 404) (.ok ⟨none, none⟩) .ok,
         "project"⟩ "foo" =
      (.ok (), [.topicsDelete ("/topics/" ++ "project" ++ "/" ++ "foo")]) ∧
    PubSubClient.unsubscribe
        ⟨constService .ok .ok .ok .ok .ok .ok .ok (.ok ⟨none, none⟩) .ok, "project"⟩ "foo" =
      (.ok (), [.subscriptionsDelete ("/subscriptions/" ++ "project" ++ "/" ++ "foo")]) ∧
    PubSubClient.unsubscribe
        ⟨constService .ok .ok (.err 404) .ok .ok .ok (.err 404) (.ok ⟨none, none⟩) .ok,
         "project"⟩ "foo" =
      (.ok (), [.subscriptionsDelete ("/subscriptions/" ++ "project" ++ "/" ++ "foo")]) :=
  ⟨(delete_is_idempotent
      (constService .ok .ok .ok .ok .ok .ok .ok (.ok ⟨none, none⟩) .ok)
      "project" "foo").2.1 rfl,
   (delete_is_idempotent
      (constService .ok .ok (.err 404) .ok .ok .ok (.err 404) (.ok ⟨none, none⟩) .ok)
      "project" "foo").2.2.1 rfl,
   (delete_is_idempotent
      (constService .ok .ok .ok .ok .ok .ok .ok (.ok ⟨none, none⟩) .ok)
      "project" "foo").2.2.2.2.1 rfl,
   (delete_is_idempotent
      (constService .ok .ok (.err 404) .ok .ok .ok (.err 404) (.ok ⟨none, none⟩) .ok)
      "project" "foo").2.2.2.2.2 rfl⟩

/-- C5: when the subscription lookup 404s, subscribe issues exactly one
create call whose body holds the scoped subscription name, the rescoped
topic name and the verbatim endpoint, after the single lookup call. -/
theorem subscribe_create_body :
    ∀ (svc : Service) (p n t e : String),
      svc.subscriptionsGet ("/subscriptions/" ++ p ++ "/" ++ n) = .err 404 →
      (PubSubClient.subscribe ⟨svc, p⟩ n t (some e)).2 =
        [.subscriptionsGet ("/subscriptions/" ++ p ++ "/" ++ n),
         .subscriptionsCreate
           ⟨"/subscriptions/" ++ p ++ "/" ++ n, "/topics/" ++ p ++ "/" ++ t, some e⟩] := by
  intro svc p n t e hget
  simp only [PubSubClient.subscribe, PubSubClient.full_subscription_name,
    PubSubClient.full_topic_name, hget]
  cases svc.subscriptionsCreate
      ⟨"/subscriptions/" ++ p ++ "/" ++ n, "/topics/" ++ p ++ "/" ++ t, some e⟩ with
  | ok => rfl
  | err s2 => rfl

/-- Witness for C5: subscribe("foo", "bar", "https://baz.com") under
project "project" against a broker without the subscription. -/
theorem subscribe_create_body_witness :
    (PubSubClient.subscribe
        ⟨constService .ok .ok .ok .ok (.err 404) .ok .ok (.ok ⟨none, none⟩) .ok, "project"⟩
        "foo" "bar" (some "https://baz.com")).2 =
      [.subscriptionsGet ("/subscriptions/" ++ "project" ++ "/" ++ "foo"),
       .subscriptionsCreate
         ⟨"/subscriptions/" ++ "project" ++ "/" ++ "foo",
          "/topics/" ++ "project" ++ "/" ++ "bar", some "https://baz.com"⟩] :=
  subscribe_create_body
    (constService .ok .ok .ok .ok (.err 404) .ok .ok (.ok ⟨none, none⟩) .ok)
    "project" "foo" "bar" "https://baz.com" rfl

/-- C6: publish issues exactly one publish call, whose body holds the
scoped topic name and the base64 encoding of the message. -/
theorem publish_call_shape :
    ∀ (svc : Service) (p t : String) (m : List Nat),
      (PubSubClient.publish ⟨svc, p⟩ t m).2 =
        [.topicsPublish ⟨"/topics/" ++ p ++ "/" ++ t, b64encode m⟩] := by
  intro svc p t m
  simp only [PubSubClient.publish, PubSubClient.full_topic_name]
  cases svc.topicsPublish ⟨"/topics/" ++ p ++ "/" ++ t, b64encode m⟩ with
  | ok => rfl
  | err s => rfl

/-- C3: a remote error with a status other than 404 on the first call of
any facade operation propagates out unchanged, and the fallback create (in
create_topic/subscribe) and the not-found-is-success path (in
delete_topic/unsubscribe) are not taken: the trace stops at that single
call. -/
theorem non_404_errors_propagate :
    ∀ (svc : Service) (p nm tp : String) (e : Option String) (m : List Nat)
      (block : Bool) (s : Nat), s ≠ 404 →
      (svc.topicsGet ("/topics/" ++ p ++ "/" ++ nm) = .err s →
        PubSubClient.create_topic ⟨svc, p⟩ nm =
          (.error s, [.topicsGet ("/topics/" ++ p ++ "/" ++ nm)])) ∧
      (svc.topicsDelete ("/topics/" ++ p ++ "/" ++ nm) = .err s →
        PubSubClient.delete_topic ⟨svc, p⟩ nm =
          (.error s, [.topicsDelete ("/topics/" ++ p ++ "/" ++ nm)])) ∧
      (svc.subscriptionsGet ("/subscriptions/" ++ p ++ "/" ++ nm) = .err s →
        PubSubClient.subscribe ⟨svc, p⟩ nm tp e =
          (.error s, [.subscriptionsGet ("/subscriptions/" ++ p ++ "/" ++ nm)])) ∧
      (svc.subscriptionsDelete ("/subscriptions/" ++ p ++ "/" ++ nm) = .err s →
        PubSubClient.unsubscribe ⟨svc, p⟩ nm =
          (.error s, [.subscriptionsDelete ("/subscriptions/" ++ p ++ "/" ++ nm)])) ∧
      (svc.topicsPublish ⟨"/topics/" ++ p ++ "/" ++ tp, b64encode m⟩ = .err s →
        PubSubClient.publish ⟨svc, p⟩ tp m =
          (.error s, [.topicsPublish ⟨"/topics/" ++ p ++ "/" ++ tp, b64encode m⟩])) ∧
      (svc.subscriptionsPull ⟨"/subscriptions/" ++ p ++ "/" ++ nm, !block⟩ = .error s →
        PubSubClient.pull ⟨svc, p⟩ nm block =
          (.httpErr s, [.subscriptionsPull ⟨"/subscriptions/" ++ p ++ "/" ++ nm, !block⟩])) := by
  intro svc p nm tp e m block s hs
  refine ⟨fun h => ?_, fun h => ?_, fun h => ?_, fun h => ?_, fun h => ?_, fun h => ?_⟩
  · simp [PubSubClient.create_topic, PubSubClient.full_topic_name, h, hs]
  · simp [PubSubClient.delete_topic, PubSubClient.full_topic_name, h, hs]
  · simp [PubSubClient.subscribe, PubSubClient.full_subscription_name, h, hs]
  · simp [PubSubClient.unsubscribe, PubSubClient.full_subscription_name, h, hs]
  · simp [PubSubClient.publish, PubSubClient.full_topic_name, h]
  · simp [PubSubClient.pull, PubSubClient.full_subscription_name, h]

/-- Witness for C3 at status 400 against a broker answering every request
with a 400 error. -/
theorem non_404_errors_propagate_witness :
    PubSubClient.create_topic
        ⟨constService (.err 400) (.err 400) (.err 400) (.err 400) (.err 400) (.err 400)
           (.err 400) (.error 400) (.err 400), "project"⟩ "foo" =
      (.error 400, [.topicsGet ("/topics/" ++ "project" ++ "/" ++ "foo")]) ∧
    PubSubClient.delete_topic
        ⟨constService (.err 400) (.err 400) (.err 400) (.err 400) (.err 400) (.err 400)
           (.err 400) (.error 400) (.err 400), "project"⟩ "foo" =
      (.error 400, [.topicsDelete ("/topics/" ++ "project" ++ "/" ++ "foo")]) ∧
    PubSubClient.subscribe
        ⟨constService (.err 400) (.err 400) (.err 400) (.err 400) (.err 400) (.err 400)
           (.err 400) (.error 400) (.err 400), "project"⟩ "foo" "bar"
        (some "https://baz.com") =
      (.error 400, [.subscriptionsGet ("/subscriptions/" ++ "project" ++ "/" ++ "foo")]) ∧
    PubSubClient.unsubscribe
        ⟨constService (.err 400) (.err 400) (.err 400) (.err 400) (.err 400) (.err 400)
           (.err 400) (.error 400) (.err 400), "project"⟩ "foo" =
      (.error 400, [.subscriptionsDelete ("/subscriptions/" ++ "project" ++ "/" ++ "foo")]) ∧
    PubSubClient.publish
        ⟨constService (.err 400) (.err 400) (.err 400) (.err 400) (.err 400) (.err 400)
           (.err 400) (.error 400) (.err 400), "project"⟩ "bar" [98] =
      (.error 400, [.topicsPublish ⟨"/topics/" ++ "project" ++ "/" ++ "bar", b64encode [98]⟩]) ∧
    PubSubClient.pull
        ⟨constService (.err 400) (.err 400) (.err 400) (.err 400) (.err 400) (.err 400)
           (.err 400) (.error 400) (.err 400), "project"⟩ "foo" false =
      (.httpErr 400, [.subscriptionsPull ⟨"/subscriptions/" ++ "project" ++ "/" ++ "foo",
        !false⟩]) :=
  ⟨(non_404_errors_propagate
      (constService (.err 400) (.err 400) (.err 400) (.err 400) (.err 400) (.err 400)
        (.err 400) (.error 400) (.err 400))
      "project" "foo" "bar" (some "https://baz.com") [98] false 400 (by decide)).1 rfl,
   (non_404_errors_propagate
      (constService (.err 400) (.err 400) (.err 400) (.err 400) (.err 400) (.err 400)
        (.err 400) (.error 400) (.err 400))
      "project" "foo" "bar" (some "https://baz.com") [98] false 400 (by decide)).2.1 rfl,
   (non_404_errors_propagate
      (constService (.err 400) (.err 400) (.err 400) (.err 400) (.err 400) (.err 400)
        (.err 400) (.error 400) (.err 400))
      "project" "foo" "bar" (some "https://baz.com") [98] false 400 (by decide)).2.2.1 rfl,
   (non_404_errors_propagate
      (constService (.err 400) (.err 400) (.err 400) (.err 400) (.err 400) (.err 400)
        (.err 400) (.error 400) (.err 400))
      "project" "foo" "bar" (some "https://baz.com") [98] false 400 (by decide)).2.2.2.1 rfl,
   (non_404_errors_propagate
      (constService (.err 400) (.err 400) (.err 400) (.err 400) (.err 400) (.err 400)
        (.err 400) (.error 400) (.err 400))
      "project" "foo" "bar" (some "https://baz.com") [98] false 400
      (by decide)).2.2.2.2.1 rfl,
   (non_404_errors_propagate
      (constService (.err 400) (.err 400) (.err 400) (.err 400) (.err 400) (.err 400)
        (.err 400) (.error 400) (.err 400))
      "project" "foo" "bar" (some "https://baz.com") [98] false 400
      (by decide)).2.2.2.2.2 rfl⟩

/-- C1: pull issues exactly one pull call with the scoped subscription name
and `returnImmediately = not block`; when the response carries a message
whose data is the base64 encoding of a payload plus an ack token, it issues
exactly one acknowledge call `{subscription, ackId: [token]}` and returns
the decoded payload; when the pubsubEvent carries no message it returns
`None` with no acknowledge call. -/
theorem pull_call_ack_and_decode :
    ∀ (svc : Service) (p s tok : String) (payload : List Nat) (block : Bool)
      (r : PullResp) (ev : PubsubEvent) (msg : MessageDict),
      (svc.subscriptionsPull ⟨"/subscriptions/" ++ p ++ "/" ++ s, !block⟩ = .ok r →
        r.pubsubEvent = some ev → ev.message = some msg →
        List.lookup "data" msg = some (b64encode payload) →
        r.ackId = some tok →
        svc.subscriptionsAcknowledge
          ⟨"/subscriptions/" ++ p ++ "/" ++ s, [some tok]⟩ = .ok →
        (∀ x ∈ payload, x < 256) →
        PubSubClient.pull ⟨svc, p⟩ s block =
          (.payload payload,
           [.subscriptionsPull ⟨"/subscriptions/" ++ p ++ "/" ++ s, !block⟩,
            .subscriptionsAcknowledge
              ⟨"/subscriptions/" ++ p ++ "/" ++ s, [some tok]⟩])) ∧
      (svc.subscriptionsPull ⟨"/subscriptions/" ++ p ++ "/" ++ s, !block⟩ = .ok r →
        r.pubsubEvent = some ev → ev.message = none →
        PubSubClient.pull ⟨svc, p⟩ s block =
          (.nomsg, [.subscriptionsPull ⟨"/subscriptions/" ++ p ++ "/" ++ s, !block⟩])) := by
  intro svc p s tok payload block r ev msg
  constructor
  · intro hpull hev hmsg hdata hackid hack hbytes
    have hne : msg.isEmpty = false := by
      cases msg with
      | nil => simp [List.lookup] at hdata
      | cons a t => rfl
    simp [PubSubClient.pull, PubSubClient.full_subscription_name, hpull, hev, hmsg, hne,
      hackid, hack, hdata, b64decode_b64encode hbytes]
  · intro hpull hev hmsg
    simp [PubSubClient.pull, PubSubClient.full_subscription_name, hpull, hev, hmsg]

/-- Witness for C1: pull("foo") under project "project" against a broker
returning base64-encoded bytes of "hi" with ack token "abc", and against a
broker whose pubsubEvent has no message. -/
theorem pull_call_ack_and_decode_witness :
    PubSubClient.pull
        ⟨constService .ok .ok .ok .ok .ok .ok .ok
           (.ok ⟨some ⟨some [("data", b64encode [104, 105])]⟩, some "abc"⟩) .ok,
         "project"⟩ "foo" false =
      (.payload [104, 105],
       [.subscriptionsPull ⟨"/subscriptions/" ++ "project" ++ "/" ++ "foo", !false⟩,
        .subscriptionsAcknowledge
          ⟨"/subscriptions/" ++ "project" ++ "/" ++ "foo", [some "abc"]⟩]) ∧
    PubSubClient.pull
        ⟨constService .ok .ok .ok .ok .ok .ok .ok
           (.ok ⟨some ⟨none⟩, some "abc"⟩) .ok, "project"⟩ "foo" false =
      (.nomsg,
       [.subscriptionsPull ⟨"/subscriptions/" ++ "project" ++ "/" ++ "foo", !false⟩]) :=
  ⟨(pull_call_ack_and_decode
      (constService .ok .ok .ok .ok .ok .ok .ok
        (.ok ⟨some ⟨some [("data", b64encode [104, 105])]⟩, some "abc"⟩) .ok)
      "project" "foo" "abc" [104, 105] false
      ⟨some ⟨some [("data", b64encode [104, 105])]⟩, some "abc"⟩
      ⟨some [("data", b64encode [104, 105])]⟩
      [("data", b64encode [104, 105])]).1 rfl rfl rfl (by simp) rfl rfl (by decide),
   (pull_call_ack_and_decode
      (constService .ok .ok .ok .ok .ok .ok .ok
        (.ok ⟨some ⟨none⟩, some "abc"⟩) .ok)
      "project" "foo" "abc" [104, 105] false
      ⟨some ⟨none⟩, some "abc"⟩ ⟨none⟩ []).2 rfl rfl rfl⟩

/-- C7: when a message was retrieved and the acknowledge call fails with
any error, that error propagates out of pull, the decoded payload is not
returned, and the acknowledgement is not retried (exactly one acknowledge
call appears in the trace). -/
theorem ack_failure_propagates :
    ∀ (svc : Service) (p sub : String) (block : Bool) (r : PullResp)
      (ev : PubsubEvent) (msg : MessageDict) (tok : Option String) (s : Nat),
      svc.subscriptionsPull ⟨"/subscriptions/" ++ p ++ "/" ++ sub, !block⟩ = .ok r →
      r.pubsubEvent = some ev → ev.message = some msg → msg.isEmpty = false →
      r.ackId = tok →
      svc.subscriptionsAcknowledge ⟨"/subscriptions/" ++ p ++ "/" ++ sub, [tok]⟩ = .err s →
      PubSubClient.pull ⟨svc, p⟩ sub block =
        (.httpErr s,
         [.subscriptionsPull ⟨"/subscriptions/" ++ p ++ "/" ++ sub, !block⟩,
          .subscriptionsAcknowledge ⟨"/subscriptions/" ++ p ++ "/" ++ sub, [tok]⟩]) := by
  intro svc p sub block r ev msg tok s hpull hev hmsg hne hackid hack
  simp [PubSubClient.pull, PubSubClient.full_subscription_name, hpull, hev, hmsg, hne,
    hackid, hack]

/-- Witness for C7: the broker returns a message but answers the
acknowledge call with a 500 error. -/
theorem ack_failure_propagates_witness :
    PubSubClient.pull
        ⟨constService .ok .ok .ok .ok .ok .ok .ok
           (.ok ⟨some ⟨some [("data", "eA==")]⟩, some "abc"⟩) (.err 500), "project"⟩
        "foo" false =
      (.httpErr 500,
       [.subscriptionsPull ⟨"/subscriptions/" ++ "project" ++ "/" ++ "foo", !false⟩,
        .subscriptionsAcknowledge
          ⟨"/subscriptions/" ++ "project" ++ "/" ++ "foo", [some "abc"]⟩]) :=
  ack_failure_propagates
    (constService .ok .ok .ok .ok .ok .ok .ok
      (.ok ⟨some ⟨some [("data", "eA==")]⟩, some "abc"⟩) (.err 500))
    "project" "foo" false
    ⟨some ⟨some [("data", "eA==")]⟩, some "abc"⟩ ⟨some [("data", "eA==")]⟩
    [("data", "eA==")] (some "abc") 500 rfl rfl rfl rfl rfl rfl

/-- C9 counterexample: the broker answers with
`{'pubsubEvent': {'message': {}}, 'ackId': 'abc'}`.  The pubsubEvent does
carry a `'message'` entry, yet pull returns `None` without acknowledging,
because the empty dictionary is falsy — so "returns None only when the
pubsubEvent lacks a 'message' entry" is false as stated. -/
theorem pull_none_despite_message_entry :
    PubSubClient.pull
        ⟨constService .ok .ok .ok .ok .ok .ok .ok
           (.ok ⟨some ⟨some []⟩, some "abc"⟩) .ok, "project"⟩ "foo" false =
      (.nomsg, [.subscriptionsPull ⟨"/subscriptions/project/foo", true⟩]) ∧
    (constService .ok .ok .ok .ok .ok .ok .ok
        (.ok ⟨some ⟨some []⟩, some "abc"⟩) .ok).subscriptionsPull
        ⟨"/subscriptions/project/foo", true⟩ =
      .ok ⟨some ⟨some []⟩, some "abc"⟩ ∧
    (some [] : Option MessageDict) ≠ none := by
  refine ⟨rfl, rfl, by simp⟩

/-- C9 (amended): pull returns `None` without acknowledging exactly when
the response carries a `'pubsubEvent'` dictionary whose `'message'` entry
is absent or an empty (falsy) dictionary; a response with no `'pubsubEvent'`
key at all makes pull raise an attribute error instead of returning an
empty result. -/
theorem pull_partial_on_response_shape :
    ∀ (svc : Service) (p sub : String) (block : Bool),
      (∀ r : PullResp,
        svc.subscriptionsPull ⟨"/subscriptions/" ++ p ++ "/" ++ sub, !block⟩ = .ok r →
        r.pubsubEvent = none →
        PubSubClient.pull ⟨svc, p⟩ sub block =
          (.attrErr,
           [.subscriptionsPull ⟨"/subscriptions/" ++ p ++ "/" ++ sub, !block⟩])) ∧
      ((PubSubClient.pull ⟨svc, p⟩ sub block).1 = .nomsg ↔
        ∃ r : PullResp,
          svc.subscriptionsPull ⟨"/subscriptions/" ++ p ++ "/" ++ sub, !block⟩ = .ok r ∧
          ∃ ev : PubsubEvent, r.pubsubEvent = some ev ∧
            (ev.message = none ∨ ev.message = some [])) := by
  intro svc p sub block
  constructor
  · intro r hpull hev
    simp [PubSubClient.pull, PubSubClient.full_subscription_name, hpull, hev]
  · constructor
    · intro hn
      revert hn
      simp only [PubSubClient.pull, PubSubClient.full_subscription_name]
      cases hpull : svc.subscriptionsPull ⟨"/subscriptions/" ++ p ++ "/" ++ sub, !block⟩ with
      | error s => simp
      | ok r =>
        obtain ⟨pe, aid⟩ := r
        cases pe with
        | none => simp
        | some ev =>
          obtain ⟨om⟩ := ev
          cases om with
          | none =>
            intro _
            exact ⟨⟨some ⟨none⟩, aid⟩, rfl, ⟨none⟩, rfl, Or.inl rfl⟩
          | some msg =>
            cases msg with
            | nil =>
              intro _
              exact ⟨⟨some ⟨some []⟩, aid⟩, rfl, ⟨some []⟩, rfl, Or.inr rfl⟩
            | cons kv tl =>
              dsimp only
              simp only [List.isEmpty_cons, Bool.false_eq_true, if_false]
              cases svc.subscriptionsAcknowledge
                  ⟨"/subscriptions/" ++ p ++ "/" ++ sub, [aid]⟩ with
              | err s => simp
              | ok =>
                cases List.lookup "data" (kv :: tl) with
                | none => simp
                | some d =>
                  cases hd : b64decode d <;> simp [hd]
    · rintro ⟨r, hpull, ev, hev, hm | hm⟩ <;>
        simp [PubSubClient.pull, PubSubClient.full_subscription_name, hpull, hev, hm]

/-- Witness for C9 (amended): a broker response without a `'pubsubEvent'`
key makes pull raise the attribute error. -/
theorem pull_partial_on_response_shape_witness :
    PubSubClient.pull
        ⟨constService .ok .ok .ok .ok .ok .ok .ok
           (.ok ⟨none, some "abc"⟩) .ok, "project"⟩ "foo" false =
      (.attrErr,
       [.subscriptionsPull ⟨"/subscriptions/" ++ "project" ++ "/" ++ "foo", !false⟩]) :=
  (pull_partial_on_response_shape
      (constService .ok .ok .ok .ok .ok .ok .ok (.ok ⟨none, some "abc"⟩) .ok)
      "project" "foo" false).1 ⟨none, some "abc"⟩ rfl rfl

/-- C8 counterexample: a complete (service_account, private_key) pair is
supplied — both components present — yet `get_client` raises, because the
empty service-account string is falsy in Python; so "when a complete pair
is supplied, construction proceeds" is false as stated. -/
theorem get_client_empty_account_rejected :
    get_client (constService .ok .ok .ok .ok .ok .ok .ok (.ok ⟨none, none⟩) .ok)
        "project" none (some "") (some "key") =
      .error missingCredentialsMsg := by
  rfl

/-- C8 (amended): get_client fails immediately with the local exception,
before constructing the service, whenever no credentials object is given
and the (service_account, private_key) pair is incomplete — a component
absent or an empty (falsy) string; it proceeds when a credentials object is
given, or when both components are non-empty strings. -/
theorem get_client_credentials_check :
    ∀ (svc : Service) (p : String) (cred : Option Credentials)
      (sa pk : Option String),
      (cred = none → truthyStr sa = false ∨ truthyStr pk = false →
        get_client svc p cred sa pk = .error missingCredentialsMsg) ∧
      (∀ c : Credentials, cred = some c →
        get_client svc p cred sa pk = .ok ⟨svc, p⟩) ∧
      (∀ a k : String, a ≠ "" → k ≠ "" →
        get_client svc p cred (some a) (some k) = .ok ⟨svc, p⟩) := by
  intro svc p cred sa pk
  refine ⟨fun hc hp => ?_, fun c hc => ?_, fun a k ha hk => ?_⟩
  · rcases hp with hp | hp <;> simp [get_client, hc, hp]
  · simp [get_client, hc]
  · have hae : a.isEmpty = false := by
      cases h : a.isEmpty with
      | false => rfl
      | true => exact absurd ((String.isEmpty_iff a).mp h) ha
    have hke : k.isEmpty = false := by
      cases h : k.isEmpty with
      | false => rfl
      | true => exact absurd ((String.isEmpty_iff k).mp h) hk
    cases cred with
    | none => simp [get_client, truthyStr, hae, hke]
    | some c => simp [get_client]

/-- Witness for C8 (amended): a missing key is rejected, a credentials
object is accepted, and a non-empty account/key pair is accepted. -/
theorem get_client_credentials_check_witness :
    get_client (constService .ok .ok .ok .ok .ok .ok .ok (.ok ⟨none, none⟩) .ok)
        "project" none (some "account") none = .error missingCredentialsMsg ∧
    get_client (constService .ok .ok .ok .ok .ok .ok .ok (.ok ⟨none, none⟩) .ok)
        "project" (some .assertion) none none =
      .ok ⟨constService .ok .ok .ok .ok .ok .ok .ok (.ok ⟨none, none⟩) .ok, "project"⟩ ∧
    get_client (constService .ok .ok .ok .ok .ok .ok .ok (.ok ⟨none, none⟩) .ok)
        "project" none (some "account") (some "key") =
      .ok ⟨constService .ok .ok .ok .ok .ok .ok .ok (.ok ⟨none, none⟩) .ok, "project"⟩ :=
  ⟨(get_client_credentials_check
      (constService .ok .ok .ok .ok .ok .ok .ok (.ok ⟨none, none⟩) .ok)
      "project" none (some "account") none).1 rfl (Or.inr rfl),
   (get_client_credentials_check
      (constService .ok .ok .ok .ok .ok .ok .ok (.ok ⟨none, none⟩) .ok)
      "project" (some .assertion) none none).2.1 .assertion rfl,
   (get_client_credentials_check
      (constService .ok .ok .ok .ok .ok .ok .ok (.ok ⟨none, none⟩) .ok)
      "project" none (some "account") (some "key")).2.2 "account" "key"
     (by decide) (by decide)⟩

/-- C10: decoding as pull does the data field that publish places on the
wire returns the original message: base64 decode after encode is the
identity on arbitrary byte strings. -/
theorem b64_roundtrip :
    ∀ (m : List Nat), (∀ x ∈ m, x < 256) → b64decode (b64encode m) = some m :=
  fun _ h => b64decode_b64encode h

/-- Witness for C10 on the byte string [0, 1, 255, 64, 7]. -/
theorem b64_roundtrip_witness :
    (∀ x ∈ [0, 1, 255, 64, 7], x < 256) ∧
    b64decode (b64encode [0, 1, 255, 64, 7]) = some [0, 1, 255, 64, 7] :=
  ⟨by decide, b64_roundtrip [0, 1, 255, 64, 7] (by decide)⟩

end PubSubSpec
